import Mathlib

/-!
Shallow embedding of `src/spaniel-observer.ts` (the `SpanielObserver` class of
the spaniel viewport-tracking library), together with proofs about its
threshold-crossing state machine.

Modelling conventions:
* JS numbers that hold timestamps/durations are `Int`; area ratios are `ℚ`.
* JS `null`/`undefined` fields are `Option _`; the JS coercion `t - null = t`
  is rendered as `t - o.getD 0`.
* The record store (a JS object keyed by the spaniel id) is an association
  list in insertion order; tracked elements are identified by a `Nat` id.
* `setTimeout`/`clearTimeout` are modelled by a `pendingTimer : Option
  PendingTimer` field on each threshold state: scheduling stores the captured
  closure data, `clearTimeout` sets it to `none`, and the asynchronous firing
  of a timer is an explicit `Input.fire` event of the step function.
* The observer's callback invocations are collected as the output
  `List (List SpanielObserverEntry)` of each step: one inner list per
  callback invocation.
-/

namespace Spaniel

/-- Geometry rectangle, as used by the intersection primitive. -/
structure Rect where
  x : Int
  y : Int
  width : Int
  height : Int
deriving DecidableEq

/-- Source: `let emptyRect = { x: 0, y: 0, width: 0, height: 0 }` (line 22). -/
def emptyRect : Rect := ⟨0, 0, 0, 0⟩

/-- The fields of `IntersectionObserverEntry` that `spaniel-observer.ts` reads:
a raw intersection sample. `target` is the tracked element's id. -/
structure IOEntry where
  intersectionRatio : ℚ
  time : Int
  rootBounds : Rect
  boundingClientRect : Rect
  intersectionRect : Rect
  target : Nat
deriving DecidableEq

/-- Source: `interface SpanielThreshold { label; ratio; time? }`. -/
structure SpanielThreshold where
  label : String
  ratio : ℚ
  time : Option Int := none
deriving DecidableEq

/-- Source: `let hasTimeThreshold = !!state.threshold.time` — JS truthiness: absent
`time` and `time = 0` are both falsy. -/
def hasTimeThreshold (t : SpanielThreshold) : Bool :=
  match t.time with
  | none => false
  | some n => n != 0

/-- Modelled from the spec: `entrySatisfiesRatio` is imported from
`src/intersection-observer.ts`, a file of this repository that is not included
under `src/`. Spec section 4.2 step 1 defines it as
`ratioSatisfied = rawSample.ratio >= threshold.ratio` (boundary-inclusive). -/
def entrySatisfiesRatio (entry : IOEntry) (ratio : ℚ) : Bool :=
  decide (ratio ≤ entry.intersectionRatio)

/-- Source: `interface SpanielObserverEntry` — an emitted enter/exit event.
`entering` is initialized to `null` in `generateSpanielEntry`, hence
`Option Bool`. The opaque caller payload is modelled as `Option Int`. -/
structure SpanielObserverEntry where
  intersectionRatio : ℚ
  time : Int
  rootBounds : Rect
  boundingClientRect : Rect
  intersectionRect : Rect
  target : Nat
  duration : Int
  entering : Option Bool
  payload : Option Int
  label : String
deriving DecidableEq

/-- The data captured by the `setTimeout` closure on a rising edge of a
time threshold (line 207): the candidate entry, the sample time at which the
timer was scheduled, and the configured delay `threshold.time`. -/
structure PendingTimer where
  entry : SpanielObserverEntry
  scheduledAt : Int
  delay : Int
deriving DecidableEq

/-- Source: `interface SpanielThresholdState`. `timeoutId` becomes `pendingTimer`. -/
structure SpanielThresholdState where
  lastSatisfied : Bool
  lastEntry : Option IOEntry
  threshold : SpanielThreshold
  lastVisible : Option Int
  visible : Bool
  pendingTimer : Option PendingTimer
deriving DecidableEq

/-- Source: `interface SpanielRecord`. -/
structure SpanielRecord where
  target : Nat
  payload : Option Int
  thresholdStates : List SpanielThresholdState
  lastSeenEntry : Option IOEntry
deriving DecidableEq

/-- The mutable fields of the `SpanielObserver` class. -/
structure SpanielObserver where
  thresholds : List SpanielThreshold
  recordStore : List (Nat × SpanielRecord)
  queuedEntries : List SpanielObserverEntry
  paused : Bool
deriving DecidableEq

/-- One step of the insertion performed by `Array.prototype.sort`'s
insertion-sort path on a reversed prefix: scanning from the right, elements
for which the comparator returns a positive number are shifted past the
inserted element. The argument list is the already-placed prefix in reversed
order. -/
def sortInsertRev (x : SpanielThreshold) : List SpanielThreshold → List SpanielThreshold
  | [] => [x]
  | y :: ys => if 0 < y.ratio then y :: sortInsertRev x ys else x :: y :: ys

/-- Models `threshold.sort((t: SpanielThreshold) => t.ratio)` (line 79).
The unary arrow function is used by `Array.prototype.sort` as a two-argument
comparator that ignores its second argument, so `compare(a, b) = a.ratio`.
Per the ECMAScript comparator contract, a positive return value places `a`
after `b`; this models the insertion sort JS engines use for short arrays
under that (inconsistent) comparator. -/
def jsSortThresholds (l : List SpanielThreshold) : List SpanielThreshold :=
  (l.foldl (fun acc x => sortInsertRev x acc) []).reverse

/-- Is a threshold list sorted by ascending ratio? (What the spec asserts
about the stored thresholds.) -/
def sortedByRatio : List SpanielThreshold → Bool
  | [] => true
  | [_] => true
  | a :: b :: rest => decide (a.ratio ≤ b.ratio) && sortedByRatio (b :: rest)

/-- Source: `this.recordStore[id]` — lookup in the association-list store. -/
def lookupRecord (store : List (Nat × SpanielRecord)) (id : Nat) : Option SpanielRecord :=
  match store with
  | [] => none
  | p :: rest => if p.1 == id then some p.2 else lookupRecord rest id

/-- Replace the record stored under `id` (key already present). -/
def updateRecord (store : List (Nat × SpanielRecord)) (id : Nat) (r : SpanielRecord) :
    List (Nat × SpanielRecord) :=
  store.map (fun p => if p.1 == id then (id, r) else p)

/-- Source: `this.recordStore[id] = record` — JS object assignment: replaces an
existing binding, otherwise appends in insertion order. -/
def insertRecord (store : List (Nat × SpanielRecord)) (id : Nat) (r : SpanielRecord) :
    List (Nat × SpanielRecord) :=
  match lookupRecord store id with
  | some _ => updateRecord store id r
  | none => store ++ [(id, r)]

/-- Source: `generateSpanielEntry` (lines 132-155): copy the geometry fields of the
raw sample, `duration: 0`, `entering: null`, the record's payload and the
threshold's label. -/
def generateSpanielEntry (payload : Option Int) (entry : IOEntry)
    (state : SpanielThresholdState) : SpanielObserverEntry :=
  { intersectionRatio := entry.intersectionRatio
    time := entry.time
    rootBounds := entry.rootBounds
    boundingClientRect := entry.boundingClientRect
    intersectionRect := entry.intersectionRect
    target := entry.target
    duration := 0
    entering := none
    payload := payload
    label := state.threshold.label }

/-- The emission guard of `handleThresholdExiting` (line 178):
`state.lastSatisfied && (!hasTimeThreshold || (hasTimeThreshold && state.visible))`. -/
def exitGuard (s : SpanielThresholdState) : Bool :=
  s.lastSatisfied &&
    (!(hasTimeThreshold s.threshold) || (hasTimeThreshold s.threshold && s.visible))

/-- Source: `handleThresholdExiting` (lines 175-187). When the guard holds, the
entry's duration becomes `time - state.lastVisible` (JS: `null` coerces
to 0) and `entering = false`, `visible` is cleared and the entry queued.
`clearTimeout(state.timeoutId)` runs unconditionally. -/
def handleThresholdExiting (spanielEntry : SpanielObserverEntry)
    (s : SpanielThresholdState) : SpanielThresholdState × List SpanielObserverEntry :=
  if exitGuard s then
    ({ s with visible := false, pendingTimer := none },
     [{ spanielEntry with
          duration := spanielEntry.time - s.lastVisible.getD 0,
          entering := some false }])
  else
    ({ s with pendingTimer := none }, [])

/-- The body of the `forEach` in `handleObserverEntry` (lines 195-222),
for one threshold state: the per-(element, threshold) transition of the
threshold state machine. Returns the updated state and the entries it pushed
onto the entry queue. -/
def processSample (payload : Option Int) (entry : IOEntry)
    (s : SpanielThresholdState) : SpanielThresholdState × List SpanielObserverEntry :=
  let hasTime := hasTimeThreshold s.threshold
  let spanielEntry := generateSpanielEntry payload entry s
  let ratioSatisfied := entrySatisfiesRatio entry s.threshold.ratio
  if ratioSatisfied && !s.lastSatisfied then
    let e := { spanielEntry with entering := some true }
    if hasTime then
      ({ s with
           lastVisible := some entry.time,
           pendingTimer := some ⟨e, entry.time, s.threshold.time.getD 0⟩,
           lastEntry := some entry,
           lastSatisfied := ratioSatisfied }, [])
    else
      ({ s with
           visible := true,
           lastEntry := some entry,
           lastSatisfied := ratioSatisfied }, [e])
  else if !ratioSatisfied then
    let p := handleThresholdExiting spanielEntry s
    ({ p.1 with lastEntry := some entry, lastSatisfied := ratioSatisfied }, p.2)
  else
    ({ s with lastEntry := some entry, lastSatisfied := ratioSatisfied }, [])

/-- Source: `record.thresholdStates.forEach(...)` — fold `processSample` over the
threshold states in order, concatenating the queued entries. -/
def processSamples (payload : Option Int) (entry : IOEntry) :
    List SpanielThresholdState → List SpanielThresholdState × List SpanielObserverEntry
  | [] => ([], [])
  | s :: rest =>
    let p := processSample payload entry s
    let q := processSamples payload entry rest
    (p.1 :: q.1, p.2 ++ q.2)

/-- The synthetic exit entry built by `handleRecordExiting` (lines 158-169):
ratio `-1`, the sentinel empty rect for all geometry, and
`duration = time - state.lastVisible` (JS: `null` coerces to 0). -/
def syntheticExitEntry (payload : Option Int) (target : Nat) (time : Int)
    (s : SpanielThresholdState) : SpanielObserverEntry :=
  { intersectionRatio := -1
    time := time
    rootBounds := emptyRect
    boundingClientRect := emptyRect
    intersectionRect := emptyRect
    target := target
    duration := time - s.lastVisible.getD 0
    entering := some false
    payload := payload
    label := s.threshold.label }

/-- The reset applied to every threshold state by `handleRecordExiting`
(lines 170-172), together with the unconditional `clearTimeout` of
`handleThresholdExiting`. -/
def exitReset (s : SpanielThresholdState) : SpanielThresholdState :=
  { s with lastSatisfied := false, visible := false, lastEntry := none, pendingTimer := none }

/-- Source: `handleRecordExiting` (lines 156-174), acting on the list of threshold
states of one record: run `handleThresholdExiting` on a synthetic exit entry
for each state, then reset `lastSatisfied`, `visible` and `lastEntry`. -/
def handleRecordExitingStates (payload : Option Int) (target : Nat) (time : Int) :
    List SpanielThresholdState → List SpanielThresholdState × List SpanielObserverEntry
  | [] => ([], [])
  | s :: rest =>
    let p := handleThresholdExiting (syntheticExitEntry payload target time s) s
    let s2 := { p.1 with lastSatisfied := false, visible := false, lastEntry := none }
    let q := handleRecordExitingStates payload target time rest
    (s2 :: q.1, p.2 ++ q.2)

/-- Source: `flushQueuedEntries` (lines 126-131): if non-empty, one callback
invocation with the whole queue, then clear it. -/
def flushQueuedEntries (obs : SpanielObserver) :
    SpanielObserver × List (List SpanielObserverEntry) :=
  if obs.queuedEntries.isEmpty then (obs, [])
  else ({ obs with queuedEntries := [] }, [obs.queuedEntries])

/-- Source: `handleObserverEntry` (lines 188-225): store the sample as
`lastSeenEntry` (before the pause check); when not paused, run the threshold
state machine for every threshold state and flush the queue once. A sample
for an untracked target is a no-op in the model. -/
def handleObserverEntry (obs : SpanielObserver) (entry : IOEntry) :
    SpanielObserver × List (List SpanielObserverEntry) :=
  match lookupRecord obs.recordStore entry.target with
  | none => (obs, [])
  | some record =>
    let record1 := { record with lastSeenEntry := some entry }
    if obs.paused then
      ({ obs with recordStore := updateRecord obs.recordStore entry.target record1 }, [])
    else
      let p := processSamples record.payload entry record.thresholdStates
      let record2 := { record1 with thresholdStates := p.1 }
      flushQueuedEntries
        { obs with
            recordStore := updateRecord obs.recordStore entry.target record2,
            queuedEntries := obs.queuedEntries ++ p.2 }

/-- The firing of the `setTimeout` callback scheduled on a rising edge
(lines 207-211): only a timer that was not cleared can fire; it sets
`visible = true`, recomputes `duration = now - state.lastVisible`, and
invokes the callback with exactly that one entry, bypassing the queue. -/
def fireTimer (obs : SpanielObserver) (target : Nat) (idx : Nat) (now : Int) :
    SpanielObserver × List (List SpanielObserverEntry) :=
  match lookupRecord obs.recordStore target with
  | none => (obs, [])
  | some record =>
    match record.thresholdStates[idx]? with
    | none => (obs, [])
    | some s =>
      match s.pendingTimer with
      | none => (obs, [])
      | some p =>
        let s2 := { s with visible := true, pendingTimer := none }
        let e := { p.entry with duration := now - s.lastVisible.getD 0 }
        let record2 := { record with thresholdStates := record.thresholdStates.set idx s2 }
        ({ obs with recordStore := updateRecord obs.recordStore target record2 }, [[e]])

/-- Source: `setAllHidden` (lines 97-105): force every record to exiting at one
timestamp, then flush once. (`this.observer.reset()` is external.) -/
def setAllHidden (obs : SpanielObserver) (now : Int) :
    SpanielObserver × List (List SpanielObserverEntry) :=
  let results := obs.recordStore.map (fun p =>
    let q := handleRecordExitingStates p.2.payload p.2.target now p.2.thresholdStates
    ((p.1, { p.2 with thresholdStates := q.1 }), q.2))
  flushQueuedEntries
    { obs with
        recordStore := results.map (fun r => r.1),
        queuedEntries := obs.queuedEntries ++ (results.map (fun r => r.2)).flatten }

/-- Source: `onTabHidden` (lines 106-109): pause, then `setAllHidden`. -/
def onTabHidden (obs : SpanielObserver) (now : Int) :
    SpanielObserver × List (List SpanielObserverEntry) :=
  setAllHidden { obs with paused := true } now

/-- The body of the loop in `onTabShown` (lines 115-121), for one record id:
if the record has a last seen raw sample, re-stamp its time to `now` and
re-run `handleObserverEntry` on it. -/
def shownStep (now : Int) (acc : SpanielObserver × List (List SpanielObserverEntry))
    (id : Nat) : SpanielObserver × List (List SpanielObserverEntry) :=
  match lookupRecord acc.1.recordStore id with
  | none => acc
  | some r =>
    match r.lastSeenEntry with
    | none => acc
    | some e =>
      let p := handleObserverEntry acc.1 { e with time := now }
      (p.1, acc.2 ++ p.2)

/-- Source: `onTabShown` (lines 110-122): unpause, then for every record with a
last seen raw sample, re-stamp that sample's time to `now` and re-run
`handleObserverEntry` on it. -/
def onTabShown (obs : SpanielObserver) (now : Int) :
    SpanielObserver × List (List SpanielObserverEntry) :=
  (obs.recordStore.map (fun p => p.1)).foldl (shownStep now) ({ obs with paused := false }, [])

/-- Source: `observe` (lines 242-258): create a fresh record with one pristine
threshold state per stored threshold. -/
def observe (obs : SpanielObserver) (target : Nat) (payload : Option Int) :
    SpanielObserver × List (List SpanielObserverEntry) :=
  let record : SpanielRecord :=
    { target := target
      payload := payload
      lastSeenEntry := none
      thresholdStates := obs.thresholds.map (fun t =>
        { lastSatisfied := false
          lastEntry := none
          threshold := t
          lastVisible := none
          visible := false
          pendingTimer := none }) }
  ({ obs with recordStore := insertRecord obs.recordStore target record }, [])

/-- Source: `unobserve` (lines 231-241): no-op when no record exists; otherwise
remove the record and, as deferred work at time `now`, run
`handleRecordExiting` on the removed record and flush. -/
def unobserve (obs : SpanielObserver) (target : Nat) (now : Int) :
    SpanielObserver × List (List SpanielObserverEntry) :=
  match lookupRecord obs.recordStore target with
  | none => (obs, [])
  | some record =>
    let store2 := obs.recordStore.filter (fun p => p.1 != target)
    let q := handleRecordExitingStates record.payload record.target now record.thresholdStates
    flushQueuedEntries
      { obs with recordStore := store2, queuedEntries := obs.queuedEntries ++ q.2 }

/-- Source: `disconnect` (lines 226-230): `setAllHidden` (without pausing), then
clear the record store. -/
def disconnectAll (obs : SpanielObserver) (now : Int) :
    SpanielObserver × List (List SpanielObserverEntry) :=
  let p := setAllHidden obs now
  ({ p.1 with recordStore := [] }, p.2)

/-- The constructor (lines 71-93): sort the configured thresholds with the
unary-comparator `sort` and start active with empty store and queue. -/
def SpanielObserver.mkObs (threshold : List SpanielThreshold) : SpanielObserver :=
  { thresholds := jsSortThresholds threshold
    recordStore := []
    queuedEntries := []
    paused := false }

/-- The external events that drive the observer. -/
inductive Input where
  | sample (e : IOEntry)
  | fire (target : Nat) (idx : Nat) (now : Int)
  | hidden (now : Int)
  | shown (now : Int)
  | observeEl (target : Nat) (payload : Option Int)
  | unobserveEl (target : Nat) (now : Int)
  | disconnectEv (now : Int)
deriving DecidableEq

/-- The step function of the whole observer. -/
def step (obs : SpanielObserver) : Input → SpanielObserver × List (List SpanielObserverEntry)
  | .sample e => handleObserverEntry obs e
  | .fire t i now => fireTimer obs t i now
  | .hidden now => onTabHidden obs now
  | .shown now => onTabShown obs now
  | .observeEl t p => observe obs t p
  | .unobserveEl t now => unobserve obs t now
  | .disconnectEv now => disconnectAll obs now

/-! ### Invariants and helper lemmas -/

/-- Per-threshold-state timer invariant: a pending dwell timer implies the
previous sample satisfied the ratio. -/
def stateTimerInv (s : SpanielThresholdState) : Bool :=
  !(s.pendingTimer.isSome) || s.lastSatisfied

/-- Record-level timer invariant. -/
def recordInv (r : SpanielRecord) : Bool :=
  r.thresholdStates.all stateTimerInv

/-- Observer-level timer invariant. -/
def obsTimerInv (obs : SpanielObserver) : Bool :=
  obs.recordStore.all (fun p => recordInv p.2)

theorem handleThresholdExiting_pendingTimer (se : SpanielObserverEntry)
    (s : SpanielThresholdState) :
    (handleThresholdExiting se s).1.pendingTimer = none := by
  unfold handleThresholdExiting
  split <;> rfl

theorem handleThresholdExiting_entering (se : SpanielObserverEntry)
    (s : SpanielThresholdState) (x : SpanielObserverEntry)
    (hx : x ∈ (handleThresholdExiting se s).2) : x.entering = some false := by
  unfold handleThresholdExiting at hx
  split at hx <;> simp_all

theorem handleThresholdExiting_notConfirmed (se : SpanielObserverEntry)
    (s : SpanielThresholdState) (ht : hasTimeThreshold s.threshold = true)
    (hv : s.visible = false) :
    handleThresholdExiting se s = ({ s with pendingTimer := none }, []) := by
  unfold handleThresholdExiting exitGuard
  simp [ht, hv]

theorem handleThresholdExiting_emit (se : SpanielObserverEntry)
    (s : SpanielThresholdState) (hg : exitGuard s = true) :
    handleThresholdExiting se s =
      ({ s with visible := false, pendingTimer := none },
       [{ se with duration := se.time - s.lastVisible.getD 0, entering := some false }]) := by
  unfold handleThresholdExiting
  simp [hg]

theorem processSample_stateTimerInv (p : Option Int) (e : IOEntry)
    (s : SpanielThresholdState) : stateTimerInv (processSample p e s).1 = true := by
  unfold processSample
  dsimp only
  split
  · next h =>
    rw [Bool.and_eq_true, Bool.not_eq_true'] at h
    split <;> simp [stateTimerInv, h.1]
  · split
    · simp [stateTimerInv, handleThresholdExiting_pendingTimer]
    · next h1 h2 =>
      rw [Bool.not_eq_true'] at h2
      simp [stateTimerInv, h2]

theorem processSample_lastVisible_noTime (p : Option Int) (e : IOEntry)
    (s : SpanielThresholdState) (ht : hasTimeThreshold s.threshold = false) :
    (processSample p e s).1.lastVisible = s.lastVisible := by
  unfold processSample
  simp only [ht]
  split
  · simp
  · split
    · unfold handleThresholdExiting
      split <;> rfl
    · rfl

theorem processSample_lastSatisfied_keeps (p : Option Int) (e : IOEntry)
    (s : SpanielThresholdState) (h : s.lastSatisfied = true) :
    (processSample p e s).1.pendingTimer = s.pendingTimer ∨
    (processSample p e s).1.pendingTimer = none := by
  unfold processSample
  dsimp only
  split
  · next hcond => simp [h] at hcond
  · split
    · right
      simp [handleThresholdExiting_pendingTimer]
    · left
      rfl

theorem processSample_fresh_timer (p : Option Int) (e : IOEntry)
    (s : SpanielThresholdState) (h : s.pendingTimer = none)
    (h2 : (processSample p e s).1.pendingTimer.isSome = true) :
    s.lastSatisfied = false ∧ hasTimeThreshold s.threshold = true ∧
    entrySatisfiesRatio e s.threshold.ratio = true := by
  unfold processSample at h2
  dsimp only at h2
  split at h2
  · next hcond =>
    rw [Bool.and_eq_true, Bool.not_eq_true'] at hcond
    split at h2
    · next hTime => exact ⟨hcond.2, hTime, hcond.1⟩
    · simp [h] at h2
  · split at h2
    · rw [handleThresholdExiting_pendingTimer] at h2
      simp at h2
    · simp [h] at h2

theorem processSample_noTime_rising (p : Option Int) (e : IOEntry)
    (s : SpanielThresholdState) (ht : hasTimeThreshold s.threshold = false)
    (hl : s.lastSatisfied = false) (hr : entrySatisfiesRatio e s.threshold.ratio = true) :
    processSample p e s =
      ({ s with visible := true, lastEntry := some e, lastSatisfied := true },
       [{ generateSpanielEntry p e s with entering := some true }]) := by
  unfold processSample
  simp [ht, hl, hr]

theorem processSample_timer_cancel (p : Option Int) (e : IOEntry)
    (s : SpanielThresholdState) (ht : hasTimeThreshold s.threshold = true)
    (hv : s.visible = false) (hr : entrySatisfiesRatio e s.threshold.ratio = false) :
    processSample p e s =
      ({ s with pendingTimer := none, lastEntry := some e, lastSatisfied := false }, []) := by
  unfold processSample
  simp [hr, handleThresholdExiting_notConfirmed _ _ ht hv]

theorem processSample_timeThreshold_entering (p : Option Int) (e : IOEntry)
    (s : SpanielThresholdState) (ht : hasTimeThreshold s.threshold = true)
    (x : SpanielObserverEntry) (hx : x ∈ (processSample p e s).2) :
    x.entering = some false := by
  unfold processSample at hx
  dsimp only at hx
  rw [ht] at hx
  split at hx
  · simp at hx
  · split at hx
    · exact handleThresholdExiting_entering _ _ _ hx
    · simp at hx

theorem processSamples_fst_all (p : Option Int) (e : IOEntry)
    (l : List SpanielThresholdState) :
    ((processSamples p e l).1).all stateTimerInv = true := by
  induction l with
  | nil => rfl
  | cons s rest ih =>
    simp [processSamples, processSample_stateTimerInv, ih]

theorem handleRecordExitingStates_fst (pl : Option Int) (t : Nat) (tm : Int)
    (l : List SpanielThresholdState) :
    (handleRecordExitingStates pl t tm l).1 = l.map exitReset := by
  induction l with
  | nil => rfl
  | cons s rest ih =>
    simp only [handleRecordExitingStates, List.map_cons, ih]
    unfold handleThresholdExiting
    split <;> simp [exitReset]

theorem handleRecordExitingStates_snd (pl : Option Int) (t : Nat) (tm : Int)
    (l : List SpanielThresholdState) :
    (handleRecordExitingStates pl t tm l).2 =
      l.filterMap (fun s =>
        if exitGuard s then some (syntheticExitEntry pl t tm s) else none) := by
  induction l with
  | nil => rfl
  | cons s rest ih =>
    simp only [handleRecordExitingStates, List.filterMap_cons, ih]
    unfold handleThresholdExiting
    split
    · next hg => simp [hg, syntheticExitEntry]
    · next hg => simp at hg; simp [hg]

theorem flushQueuedEntries_recordStore (o : SpanielObserver) :
    (flushQueuedEntries o).1.recordStore = o.recordStore := by
  unfold flushQueuedEntries
  split <;> rfl

theorem flushQueuedEntries_paused (o : SpanielObserver) :
    (flushQueuedEntries o).1.paused = o.paused := by
  unfold flushQueuedEntries
  split <;> rfl

theorem lookupRecord_all (store : List (Nat × SpanielRecord)) (id : Nat)
    (r : SpanielRecord) (g : SpanielRecord → Bool)
    (hl : lookupRecord store id = some r)
    (ha : store.all (fun p => g p.2) = true) : g r = true := by
  induction store with
  | nil => simp [lookupRecord] at hl
  | cons p rest ih =>
    simp only [List.all_cons, Bool.and_eq_true] at ha
    unfold lookupRecord at hl
    split at hl
    · cases hl
      exact ha.1
    · exact ih hl ha.2

theorem updateRecord_all (store : List (Nat × SpanielRecord)) (id : Nat)
    (r : SpanielRecord) (g : SpanielRecord → Bool)
    (ha : store.all (fun p => g p.2) = true) (hr : g r = true) :
    (updateRecord store id r).all (fun p => g p.2) = true := by
  unfold updateRecord
  rw [List.all_map, List.all_eq_true]
  rw [List.all_eq_true] at ha
  intro p hp
  by_cases hid : (p.1 == id) = true
  · simp [Function.comp, hid, hr]
  · simp only [Function.comp]
    rw [if_neg hid]
    exact ha p hp

theorem insertRecord_all (store : List (Nat × SpanielRecord)) (id : Nat)
    (r : SpanielRecord) (g : SpanielRecord → Bool)
    (ha : store.all (fun p => g p.2) = true) (hr : g r = true) :
    (insertRecord store id r).all (fun p => g p.2) = true := by
  unfold insertRecord
  split
  · exact updateRecord_all store id r g ha hr
  · rw [List.all_append]
    simp [ha, hr]

theorem all_set {α : Type} (f : α → Bool) :
    ∀ (l : List α) (i : Nat) (x : α), l.all f = true → f x = true →
      (l.set i x).all f = true
  | [], _, _, h1, _ => h1
  | a :: l, 0, x, h1, h2 => by
    simp only [List.set, List.all_cons, Bool.and_eq_true] at *
    exact ⟨h2, h1.2⟩
  | a :: l, i + 1, x, h1, h2 => by
    simp only [List.set, List.all_cons, Bool.and_eq_true] at *
    exact ⟨h1.1, all_set f l i x h1.2 h2⟩

theorem handleObserverEntry_inv (obs : SpanielObserver) (e : IOEntry)
    (h : obsTimerInv obs = true) : obsTimerInv (handleObserverEntry obs e).1 = true := by
  unfold handleObserverEntry
  cases hl : lookupRecord obs.recordStore e.target with
  | none => exact h
  | some record =>
    have hrec : recordInv record = true := lookupRecord_all _ _ _ _ hl h
    dsimp only
    split
    · exact updateRecord_all _ _ _ _ h hrec
    · unfold obsTimerInv
      rw [flushQueuedEntries_recordStore]
      exact updateRecord_all _ _ _ _ h (processSamples_fst_all _ _ _)

theorem fireTimer_inv (obs : SpanielObserver) (t i : Nat) (now : Int)
    (h : obsTimerInv obs = true) : obsTimerInv (fireTimer obs t i now).1 = true := by
  unfold fireTimer
  cases hl : lookupRecord obs.recordStore t with
  | none => exact h
  | some record =>
    dsimp only
    cases hs : record.thresholdStates[i]? with
    | none => exact h
    | some s =>
      dsimp only
      cases hp : s.pendingTimer with
      | none => exact h
      | some p =>
        dsimp only
        have hrec : recordInv record = true := lookupRecord_all _ _ _ _ hl h
        refine updateRecord_all _ _ _ _ h ?_
        unfold recordInv at *
        exact all_set _ _ _ _ hrec rfl

theorem setAllHidden_inv (obs : SpanielObserver) (now : Int) :
    obsTimerInv (setAllHidden obs now).1 = true := by
  unfold setAllHidden obsTimerInv
  rw [flushQueuedEntries_recordStore]
  dsimp only
  rw [List.map_map, List.all_map, List.all_eq_true]
  intro p _
  simp only [Function.comp, recordInv, handleRecordExitingStates_fst, List.all_map,
    List.all_eq_true]
  intro s _
  rfl

theorem onTabShown_inv (obs : SpanielObserver) (now : Int)
    (h : obsTimerInv obs = true) : obsTimerInv (onTabShown obs now).1 = true := by
  unfold onTabShown
  have key : ∀ (ids : List Nat) (acc : SpanielObserver × List (List SpanielObserverEntry)),
      obsTimerInv acc.1 = true → obsTimerInv (ids.foldl (shownStep now) acc).1 = true := by
    intro ids
    induction ids with
    | nil => intro acc hacc; exact hacc
    | cons id rest ih =>
      intro acc hacc
      rw [List.foldl_cons]
      refine ih _ ?_
      unfold shownStep
      split
      · exact hacc
      · split
        · exact hacc
        · exact handleObserverEntry_inv _ _ hacc
  exact key _ _ h

theorem observe_inv (obs : SpanielObserver) (t : Nat) (pl : Option Int)
    (h : obsTimerInv obs = true) : obsTimerInv (observe obs t pl).1 = true := by
  unfold observe obsTimerInv
  dsimp only
  refine insertRecord_all _ _ _ _ h ?_
  unfold recordInv
  dsimp only
  rw [List.all_eq_true]
  intro x hx
  rw [List.mem_map] at hx
  obtain ⟨t2, ht2, rfl⟩ := hx
  rfl

theorem unobserve_inv (obs : SpanielObserver) (t : Nat) (now : Int)
    (h : obsTimerInv obs = true) : obsTimerInv (unobserve obs t now).1 = true := by
  unfold unobserve
  split
  · exact h
  · unfold obsTimerInv
    rw [flushQueuedEntries_recordStore]
    dsimp only
    rw [List.all_eq_true]
    intro p hp
    rw [List.mem_filter] at hp
    rw [obsTimerInv, List.all_eq_true] at h
    exact h p hp.1

theorem step_inv (obs : SpanielObserver) (i : Input)
    (h : obsTimerInv obs = true) : obsTimerInv (step obs i).1 = true := by
  cases i with
  | sample e => exact handleObserverEntry_inv obs e h
  | fire t idx now => exact fireTimer_inv obs t idx now h
  | hidden now => exact setAllHidden_inv _ now
  | shown now => exact onTabShown_inv obs now h
  | observeEl t p => exact observe_inv obs t p h
  | unobserveEl t now => exact unobserve_inv obs t now h
  | disconnectEv now =>
    unfold step disconnectAll obsTimerInv
    rfl

/-! ### Concrete fixtures for witnesses and counterexamples -/

/-- A nonempty bounding rectangle used by concrete samples. -/
def boxRect : Rect := ⟨0, 0, 10, 10⟩

/-- A concrete raw sample for element 7 with the given ratio and time. -/
def mkSample (r : ℚ) (t : Int) : IOEntry :=
  { intersectionRatio := r
    time := t
    rootBounds := boxRect
    boundingClientRect := boxRect
    intersectionRect := boxRect
    target := 7 }

/-- A ratio-only threshold, as in the spec's first scenario. -/
def thresh50 : SpanielThreshold := ⟨"50pct", mkRat 1 2, none⟩

/-- A time-qualified threshold, as in the spec's second scenario. -/
def threshViewable : SpanielThreshold := ⟨"viewable", mkRat 1 2, some 1000⟩

/-- A confirmed-visible state of the ratio-only threshold; `lastVisible` was
never written because the threshold has no time component. -/
def sVis : SpanielThresholdState :=
  { lastSatisfied := true, lastEntry := none, threshold := thresh50,
    lastVisible := none, visible := true, pendingTimer := none }

/-- A pristine state of the ratio-only threshold, as created by `observe`. -/
def sFresh : SpanielThresholdState :=
  { lastSatisfied := false, lastEntry := none, threshold := thresh50,
    lastVisible := none, visible := false, pendingTimer := none }

/-- A pristine state of the time threshold, as created by `observe`. -/
def sFreshT : SpanielThresholdState :=
  { lastSatisfied := false, lastEntry := none, threshold := threshViewable,
    lastVisible := none, visible := false, pendingTimer := none }

/-- A confirmed-visible state of the time threshold. -/
def sVisT : SpanielThresholdState :=
  { lastSatisfied := true, lastEntry := none, threshold := threshViewable,
    lastVisible := some 100, visible := true, pendingTimer := none }

/-- The entry captured by the dwell timer scheduled at time 100. -/
def enPend : SpanielObserverEntry :=
  { generateSpanielEntry none (mkSample (mkRat 6 10) 100) sFreshT with entering := some true }

/-- The pending dwell timer scheduled at time 100 with delay 1000. -/
def ptFix : PendingTimer := ⟨enPend, 100, 1000⟩

/-- A time-threshold state right after a rising edge: timer pending, not yet
confirmed visible. -/
def sPend : SpanielThresholdState :=
  { lastSatisfied := true, lastEntry := some (mkSample (mkRat 6 10) 100),
    threshold := threshViewable, lastVisible := some 100, visible := false,
    pendingTimer := some ptFix }

/-- The record of element 7 with the ratio-only threshold pristine. -/
def recFresh : SpanielRecord :=
  { target := 7, payload := none, thresholdStates := [sFresh], lastSeenEntry := none }

/-- The record of element 7 with the ratio-only threshold confirmed visible. -/
def recVis : SpanielRecord :=
  { target := 7, payload := none, thresholdStates := [sVis], lastSeenEntry := none }

/-- The record of element 7 with the time threshold's dwell timer pending. -/
def recPend : SpanielRecord :=
  { target := 7, payload := none, thresholdStates := [sPend],
    lastSeenEntry := some (mkSample (mkRat 6 10) 100) }

/-- An observer tracking element 7 with a pristine ratio-only threshold. -/
def obsFresh : SpanielObserver :=
  { thresholds := [thresh50]
    recordStore := [(7, recFresh)]
    queuedEntries := []
    paused := false }

/-- An observer tracking element 7 with the ratio-only threshold in the
confirmed-visible state. -/
def obsVis : SpanielObserver :=
  { thresholds := [thresh50]
    recordStore := [(7, recVis)]
    queuedEntries := []
    paused := false }

/-- The confirmed-visible observer with the pause flag set, as after a
page-hidden signal would set `paused` (states not yet reset, for isolating
the pause gate). -/
def obsPaused : SpanielObserver := { obsVis with paused := true }

/-- An observer tracking element 7 with the time threshold and a pending
dwell timer. -/
def obsPend : SpanielObserver :=
  { thresholds := [threshViewable]
    recordStore := [(7, recPend)]
    queuedEntries := []
    paused := false }

/-- The observer of the spec's no-time scenario right after `observe`. -/
def scenarioObs : SpanielObserver := (observe (SpanielObserver.mkObs [thresh50]) 7 none).1

/-- Scenario sample 1: ratio 0.2 at t1 = 50. -/
def scenarioRun1 : SpanielObserver × List (List SpanielObserverEntry) :=
  step scenarioObs (.sample (mkSample (mkRat 2 10) 50))

/-- Scenario sample 2: ratio 0.6 at t2 = 100. -/
def scenarioRun2 : SpanielObserver × List (List SpanielObserverEntry) :=
  step scenarioRun1.1 (.sample (mkSample (mkRat 6 10) 100))

/-- Scenario sample 3: ratio 0.3 at t3 = 200. -/
def scenarioRun3 : SpanielObserver × List (List SpanielObserverEntry) :=
  step scenarioRun2.1 (.sample (mkSample (mkRat 3 10) 200))

/-! ### Claim theorems -/

/-- Claim C1, counterexample: in the spec's scenario — threshold
`{label: "50pct", ratio: 0.5}` with no time component, samples ratio 0.2 at
t1 = 50, ratio 0.6 at t2 = 100, ratio 0.3 at t3 = 200 — the exiting event
emitted at the third sample has `duration = 200 = t3`, not `t3 - t2 = 100`:
the rising edge of a no-time threshold never writes `lastVisible`, so the
exit computes `t3 - null`, which JS coerces to `t3 - 0`. -/
theorem claim1_counterexample :
    scenarioRun3.2.map (fun b => b.map (fun x => x.duration)) = [[200]] ∧
    scenarioRun3.2.map (fun b => b.map (fun x => x.entering)) = [[some false]] ∧
    ¬ ((200 : Int) = 200 - 100) := by
  decide

/-- Claim C1, amended: when an exit event is emitted for a threshold state,
its duration equals the exit entry's time minus the *stored* `lastVisible`
value (JS `null` coerced to 0); `lastVisible` is not updated when a threshold
without a time component is processed, so for such thresholds it keeps its
initial `null` and the scenario's exiting duration is `t3 - 0 = t3`. For a
time threshold, `lastVisible` is the time ratio-satisfaction began, and the
claim's formula holds as stated. -/
theorem claim1_exit_duration (se : SpanielObserverEntry) (s : SpanielThresholdState)
    (p : Option Int) (e : IOEntry)
    (hg : exitGuard s = true) (ht : hasTimeThreshold s.threshold = false) :
    (handleThresholdExiting se s).2 =
      [{ se with duration := se.time - s.lastVisible.getD 0, entering := some false }] ∧
    (processSample p e s).1.lastVisible = s.lastVisible := by
  constructor
  · rw [handleThresholdExiting_emit se s hg]
  · exact processSample_lastVisible_noTime p e s ht

/-- Claim C1, witness: the amended duration law evaluated at the scenario's
exit sample and the confirmed-visible no-time state. -/
theorem claim1_witness :
    (handleThresholdExiting (generateSpanielEntry none (mkSample (mkRat 3 10) 200) sVis) sVis).2 =
      [{ generateSpanielEntry none (mkSample (mkRat 3 10) 200) sVis with
           duration := (generateSpanielEntry none (mkSample (mkRat 3 10) 200) sVis).time -
             sVis.lastVisible.getD 0,
           entering := some false }] ∧
    (processSample none (mkSample (mkRat 3 10) 200) sVis).1.lastVisible = sVis.lastVisible :=
  claim1_exit_duration (generateSpanielEntry none (mkSample (mkRat 3 10) 200) sVis) sVis
    none (mkSample (mkRat 3 10) 200) (by decide) (by decide)

/-- Claim C2, code-bug evaluation: constructing the observer with the
ascending threshold list `[{label: "a", ratio: 0.1}, {label: "b", ratio: 0.5}]`
stores `[b, a]` — descending. `threshold.sort((t) => t.ratio)` passes a key
function where `Array.prototype.sort` expects a two-argument comparator; the
comparator returns `a.ratio` (positive) for every pair, so insertion moves
each element before all previously placed positive-ratio elements and the
stored sequence is the reverse of the input, not ascending by ratio. -/
theorem claim2_sort_not_ascending :
    (SpanielObserver.mkObs [⟨"a", mkRat 1 10, none⟩, ⟨"b", mkRat 1 2, none⟩]).thresholds =
      [⟨"b", mkRat 1 2, none⟩, ⟨"a", mkRat 1 10, none⟩] ∧
    sortedByRatio (SpanielObserver.mkObs [⟨"a", mkRat 1 10, none⟩, ⟨"b", mkRat 1 2, none⟩]).thresholds =
      false := by
  decide

/-- Claim C9: at most one pending dwell timer exists per threshold state.
The invariant "a pending timer implies `lastSatisfied = true`" holds of a
freshly constructed observer and is preserved by every step. Under it a
state with a pending timer can never schedule a second one: processing a
sample with `lastSatisfied = true` either keeps the pending timer or cancels
it; a fresh timer appears only on a rising edge (`lastSatisfied = false`,
ratio satisfied) of a time threshold. -/
theorem claim9_single_timer :
    (∀ ts, obsTimerInv (SpanielObserver.mkObs ts) = true) ∧
    (∀ (obs : SpanielObserver) (i : Input), obsTimerInv obs = true →
      obsTimerInv (step obs i).1 = true) ∧
    (∀ (p : Option Int) (e : IOEntry) (s : SpanielThresholdState),
      s.lastSatisfied = true →
      (processSample p e s).1.pendingTimer = s.pendingTimer ∨
      (processSample p e s).1.pendingTimer = none) ∧
    (∀ (p : Option Int) (e : IOEntry) (s : SpanielThresholdState),
      s.pendingTimer = none → (processSample p e s).1.pendingTimer.isSome = true →
      s.lastSatisfied = false ∧ hasTimeThreshold s.threshold = true ∧
      entrySatisfiesRatio e s.threshold.ratio = true) :=
  ⟨fun _ => rfl, step_inv, processSample_lastSatisfied_keeps, processSample_fresh_timer⟩

/-- Claim C9, witness: the invariant evaluated across a concrete step, the
no-second-timer law at a satisfied state, and the rising-edge law at a
pristine time-threshold state fed a satisfying sample. -/
theorem claim9_witness :
    obsTimerInv (step obsPend (.hidden 400)).1 = true ∧
    ((processSample none (mkSample (mkRat 6 10) 150) sPend).1.pendingTimer = sPend.pendingTimer ∨
      (processSample none (mkSample (mkRat 6 10) 150) sPend).1.pendingTimer = none) ∧
    (sFreshT.lastSatisfied = false ∧ hasTimeThreshold sFreshT.threshold = true ∧
      entrySatisfiesRatio (mkSample (mkRat 6 10) 100) sFreshT.threshold.ratio = true) :=
  ⟨claim9_single_timer.2.1 obsPend (.hidden 400) (by decide),
   claim9_single_timer.2.2.1 none (mkSample (mkRat 6 10) 150) sPend (by decide),
   claim9_single_timer.2.2.2 none (mkSample (mkRat 6 10) 100) sFreshT (by decide) (by decide)⟩

/-- Claim C10: `unobserve` on an element with no record (never observed or
already unobserved) is a no-op: the observer state — record store included —
is unchanged and the callback is not invoked. -/
theorem claim10_unobserve_untracked (obs : SpanielObserver) (t : Nat) (now : Int)
    (h : lookupRecord obs.recordStore t = none) :
    step obs (.unobserveEl t now) = (obs, []) := by
  simp [step, unobserve, h]

/-- Claim C10, witness: unobserving untracked element 99 on a concrete
observer tracking only element 7. -/
theorem claim10_witness : step obsVis (.unobserveEl 99 0) = (obsVis, []) :=
  claim10_unobserve_untracked obsVis 99 0 (by decide)

/-- A confirmed-visible state of the time threshold fed an unsatisfying
sample emits this exit entry (used by the claim C3 witness). -/
def exitEnT : SpanielObserverEntry :=
  { generateSpanielEntry none (mkSample (mkRat 3 10) 1500) sVisT with
      duration := 1500 - sVisT.lastVisible.getD 0, entering := some false }

/-- Claim C3: for a threshold with a dwell time, entering events are emitted
only by the dwell timer — processing a raw sample never emits an entering
entry for a time-threshold state, so the rising edge alone produces nothing
and the entry must survive until the timer fires. When a still-pending timer
fires at time `now` (`setTimeout` guarantees `now ≥ scheduledAt + delay`,
taken as a hypothesis), the callback is invoked with exactly that one
entering entry — the batch queue is untouched — and its duration is
`now - lastVisible`, at least the configured dwell time. -/
theorem claim3_dwell_time_confirmation :
    (∀ (p : Option Int) (e : IOEntry) (s : SpanielThresholdState),
      hasTimeThreshold s.threshold = true → ∀ x ∈ (processSample p e s).2,
      x.entering = some false) ∧
    (∀ (obs : SpanielObserver) (t i : Nat) (now : Int) (r : SpanielRecord)
      (s : SpanielThresholdState) (pt : PendingTimer),
      lookupRecord obs.recordStore t = some r →
      r.thresholdStates[i]? = some s →
      s.pendingTimer = some pt →
      s.lastVisible = some pt.scheduledAt →
      pt.delay = s.threshold.time.getD 0 →
      pt.entry.entering = some true →
      pt.scheduledAt + pt.delay ≤ now →
      (fireTimer obs t i now).2 = [[{ pt.entry with duration := now - pt.scheduledAt }]] ∧
      ({ pt.entry with duration := now - pt.scheduledAt }).entering = some true ∧
      s.threshold.time.getD 0 ≤ now - pt.scheduledAt ∧
      (fireTimer obs t i now).1.queuedEntries = obs.queuedEntries) := by
  constructor
  · exact processSample_timeThreshold_entering
  · intro obs t i now r s pt hl hs hp hlv hd hent hnow
    refine ⟨?_, ?_, ?_, ?_⟩
    · simp [fireTimer, hl, hs, hp, hlv]
    · exact hent
    · rw [← hd]
      omega
    · simp [fireTimer, hl, hs, hp]

/-- Claim C3, witness: a sample-driven exit entry of the time threshold has
`entering = false`, and firing the concrete pending timer of `obsPend` at
time 1100 emits exactly one entering entry with duration 1000. -/
theorem claim3_witness :
    exitEnT.entering = some false ∧
    ((fireTimer obsPend 7 0 1100).2 =
        [[{ ptFix.entry with duration := (1100 : Int) - ptFix.scheduledAt }]] ∧
      ({ ptFix.entry with duration := (1100 : Int) - ptFix.scheduledAt }).entering = some true ∧
      sPend.threshold.time.getD 0 ≤ (1100 : Int) - ptFix.scheduledAt ∧
      (fireTimer obsPend 7 0 1100).1.queuedEntries = obsPend.queuedEntries) :=
  ⟨claim3_dwell_time_confirmation.1 none (mkSample (mkRat 3 10) 1500) sVisT
      (by decide) exitEnT (by decide),
   claim3_dwell_time_confirmation.2 obsPend 7 0 1100 recPend sPend ptFix
      (by decide) (by decide) (by decide) (by decide) (by decide) (by decide) (by decide)⟩

/-- Claim C4: if, after a rising edge of a time threshold, the ratio becomes
unsatisfied before the dwell timer fires, then (i) processing the
unsatisfying sample emits nothing for that state — the exit guard fails
because `visible` is still false — and cancels the pending timer; (ii) the
same holds for a forced exit, which goes through `handleThresholdExiting`
with the same guard; and (iii) a canceled timer never fires: the fire event
for a state with no pending timer leaves the observer unchanged and emits
nothing, so no entering event is ever produced for that rising edge. -/
theorem claim4_early_unsatisfaction_cancels :
    (∀ (p : Option Int) (e : IOEntry) (s : SpanielThresholdState),
      hasTimeThreshold s.threshold = true → s.visible = false →
      entrySatisfiesRatio e s.threshold.ratio = false →
      processSample p e s =
        ({ s with pendingTimer := none, lastEntry := some e, lastSatisfied := false }, [])) ∧
    (∀ (se : SpanielObserverEntry) (s : SpanielThresholdState),
      hasTimeThreshold s.threshold = true → s.visible = false →
      handleThresholdExiting se s = ({ s with pendingTimer := none }, [])) ∧
    (∀ (obs : SpanielObserver) (t i : Nat) (now : Int) (r : SpanielRecord)
      (s : SpanielThresholdState),
      lookupRecord obs.recordStore t = some r → r.thresholdStates[i]? = some s →
      s.pendingTimer = none → fireTimer obs t i now = (obs, [])) := by
  refine ⟨processSample_timer_cancel, handleThresholdExiting_notConfirmed, ?_⟩
  intro obs t i now r s hl hs hp
  simp [fireTimer, hl, hs, hp]

/-- Claim C4, witness: an unsatisfying sample at time 300 cancels the
concrete pending timer of `sPend` without emitting anything, the forced-exit
path does the same, and firing where no timer is pending is a no-op. -/
theorem claim4_witness :
    processSample none (mkSample (mkRat 1 10) 300) sPend =
      ({ sPend with
           pendingTimer := none,
           lastEntry := some (mkSample (mkRat 1 10) 300), lastSatisfied := false }, []) ∧
    handleThresholdExiting (syntheticExitEntry none 7 300 sPend) sPend =
      ({ sPend with pendingTimer := none }, []) ∧
    fireTimer obsVis 7 0 999 = (obsVis, []) :=
  ⟨claim4_early_unsatisfaction_cancels.1 none (mkSample (mkRat 1 10) 300) sPend
      (by decide) (by decide) (by decide),
   claim4_early_unsatisfaction_cancels.2.1 (syntheticExitEntry none 7 300 sPend) sPend
      (by decide) (by decide),
   claim4_early_unsatisfaction_cancels.2.2 obsVis 7 0 999 recVis sVis
      (by decide) (by decide) (by decide)⟩

/-- Claim C5: for a threshold with no time component, a rising edge
(ratio satisfied, `lastSatisfied` false) immediately produces the entering
entry — duration 0, `visible` set to true — appended to the entry queue; at
the observer level the entry is delivered in the single batch flush performed
at the end of processing that sample. -/
theorem claim5_no_time_entering :
    (∀ (p : Option Int) (e : IOEntry) (s : SpanielThresholdState),
      hasTimeThreshold s.threshold = false → s.lastSatisfied = false →
      entrySatisfiesRatio e s.threshold.ratio = true →
      processSample p e s =
        ({ s with visible := true, lastEntry := some e, lastSatisfied := true },
         [{ generateSpanielEntry p e s with entering := some true }]) ∧
      ({ generateSpanielEntry p e s with entering := some true }).duration = 0) ∧
    (∀ (obs : SpanielObserver) (e : IOEntry) (r : SpanielRecord)
      (s : SpanielThresholdState),
      obs.paused = false → obs.queuedEntries = [] →
      lookupRecord obs.recordStore e.target = some r →
      r.thresholdStates = [s] →
      hasTimeThreshold s.threshold = false → s.lastSatisfied = false →
      entrySatisfiesRatio e s.threshold.ratio = true →
      (handleObserverEntry obs e).2 =
        [[{ generateSpanielEntry r.payload e s with entering := some true }]]) := by
  constructor
  · intro p e s ht hls hsat
    exact ⟨processSample_noTime_rising p e s ht hls hsat, rfl⟩
  · intro obs e r s hpaused hq hl hr ht hls hsat
    simp only [handleObserverEntry, hl, hpaused, hr]
    simp only [processSamples, processSample_noTime_rising r.payload e s ht hls hsat]
    simp [flushQueuedEntries, hq]

/-- Claim C5, witness: a fresh ratio-only threshold state fed a satisfying
sample at time 100 on a concrete single-record observer: the entering entry
with duration 0 is delivered as the batch flush of that sample. -/
theorem claim5_witness :
    (processSample none (mkSample (mkRat 6 10) 100) sFresh =
      ({ sFresh with
           visible := true, lastEntry := some (mkSample (mkRat 6 10) 100),
           lastSatisfied := true },
       [{ generateSpanielEntry none (mkSample (mkRat 6 10) 100) sFresh with
            entering := some true }]) ∧
     ({ generateSpanielEntry none (mkSample (mkRat 6 10) 100) sFresh with
          entering := some true }).duration = 0) ∧
    (handleObserverEntry obsFresh (mkSample (mkRat 6 10) 100)).2 =
      [[{ generateSpanielEntry recFresh.payload (mkSample (mkRat 6 10) 100) sFresh with
            entering := some true }]] :=
  ⟨claim5_no_time_entering.1 none (mkSample (mkRat 6 10) 100) sFresh
      (by decide) (by decide) (by decide),
   claim5_no_time_entering.2 obsFresh (mkSample (mkRat 6 10) 100) recFresh sFresh
      (by decide) (by decide) (by decide) (by decide) (by decide) (by decide) (by decide)⟩

/-- The exit entries emitted when the page is hidden at time `now`: one per
(record, threshold state) pair whose exit guard holds — `lastSatisfied` true
and, for time thresholds, `visible` true — carrying ratio `-1` and the
sentinel empty rect. -/
def hideEntries (obs : SpanielObserver) (now : Int) : List SpanielObserverEntry :=
  (obs.recordStore.map (fun p => p.2.thresholdStates.filterMap (fun s =>
    if exitGuard s then some (syntheticExitEntry p.2.payload p.2.target now s)
    else none))).flatten

theorem setAllHidden_spec (o : SpanielObserver) (now : Int)
    (hq : o.queuedEntries = []) :
    setAllHidden o now =
      ({ o with
           recordStore := o.recordStore.map (fun p =>
             (p.1, { p.2 with thresholdStates := p.2.thresholdStates.map exitReset })),
           queuedEntries := [] },
       if hideEntries o now = [] then [] else [hideEntries o now]) := by
  unfold setAllHidden
  rw [hq]
  dsimp only
  rw [List.map_map, List.map_map]
  have h1 : ((fun r => r.1) ∘ (fun p : Nat × SpanielRecord =>
      let q := handleRecordExitingStates p.2.payload p.2.target now p.2.thresholdStates
      ((p.1, { p.2 with thresholdStates := q.1 }), q.2))) =
      (fun p : Nat × SpanielRecord =>
        (p.1, { p.2 with thresholdStates := p.2.thresholdStates.map exitReset })) := by
    funext p
    simp [Function.comp, handleRecordExitingStates_fst]
  have h2 : ((fun r => r.2) ∘ (fun p : Nat × SpanielRecord =>
      let q := handleRecordExitingStates p.2.payload p.2.target now p.2.thresholdStates
      ((p.1, { p.2 with thresholdStates := q.1 }), q.2))) =
      (fun p : Nat × SpanielRecord => p.2.thresholdStates.filterMap (fun s =>
        if exitGuard s then some (syntheticExitEntry p.2.payload p.2.target now s)
        else none)) := by
    funext p
    simp [Function.comp, handleRecordExitingStates_snd]
  rw [h1, h2]
  unfold hideEntries
  unfold flushQueuedEntries
  dsimp only
  rw [List.nil_append]
  split
  · next hE =>
    rw [List.isEmpty_iff] at hE
    rw [if_pos hE, hE]
  · next hE =>
    rw [List.isEmpty_iff] at hE
    rw [if_neg hE]

/-- Claim C6: hiding the page pauses the observer; an exit event with the
sentinel empty rect for all geometry fields and ratio `-1` is emitted exactly
for the threshold states whose exit guard holds (`lastSatisfied` true and,
for time thresholds, `visible` true), delivered as one flushed batch; and
every threshold state of every record is reset — `lastSatisfied := false`,
`visible := false`, `lastEntry := null`, pending timer canceled — whether or
not an event was emitted for it. -/
theorem claim6_hide_forces_exit (obs : SpanielObserver) (now : Int)
    (hq : obs.queuedEntries = []) :
    (step obs (.hidden now)).1.paused = true ∧
    (step obs (.hidden now)).1.recordStore =
      obs.recordStore.map (fun p =>
        (p.1, { p.2 with thresholdStates := p.2.thresholdStates.map exitReset })) ∧
    (step obs (.hidden now)).2 =
      (if hideEntries obs now = [] then [] else [hideEntries obs now]) ∧
    (∀ x ∈ hideEntries obs now,
      x.intersectionRatio = -1 ∧ x.rootBounds = emptyRect ∧
      x.boundingClientRect = emptyRect ∧ x.intersectionRect = emptyRect ∧
      x.entering = some false) := by
  have hstep : step obs (.hidden now) = setAllHidden { obs with paused := true } now := rfl
  have hspec := setAllHidden_spec { obs with paused := true } now hq
  refine ⟨?_, ?_, ?_, ?_⟩
  · rw [hstep, hspec]
  · rw [hstep, hspec]
  · rw [hstep, hspec]
    exact rfl
  · intro x hx
    unfold hideEntries at hx
    rw [List.mem_flatten] at hx
    obtain ⟨l, hl, hxl⟩ := hx
    rw [List.mem_map] at hl
    obtain ⟨p, hp, rfl⟩ := hl
    rw [List.mem_filterMap] at hxl
    obtain ⟨s, hs, hsx⟩ := hxl
    split at hsx
    · injection hsx with h
      subst h
      exact ⟨rfl, rfl, rfl, rfl, rfl⟩
    · cases hsx

/-- Claim C6, witness: hiding the page at time 400 on a concrete observer
with a confirmed-visible ratio-only threshold. -/
theorem claim6_witness :
    (step obsVis (.hidden 400)).1.paused = true ∧
    (step obsVis (.hidden 400)).2 =
      (if hideEntries obsVis 400 = [] then [] else [hideEntries obsVis 400]) :=
  ⟨(claim6_hide_forces_exit obsVis 400 rfl).1,
   (claim6_hide_forces_exit obsVis 400 rfl).2.2.1⟩

/-- Claim C7: while the observer is paused, a raw sample for a tracked
element produces no callback invocation and changes nothing except the
record's `lastSeenEntry`: every threshold state, the entry queue, the
thresholds and the paused flag are untouched. -/
theorem claim7_paused_samples_dropped (obs : SpanielObserver) (e : IOEntry)
    (r : SpanielRecord)
    (hp : obs.paused = true) (hl : lookupRecord obs.recordStore e.target = some r) :
    handleObserverEntry obs e =
      ({ obs with
           recordStore := updateRecord obs.recordStore e.target
             { r with lastSeenEntry := some e } }, []) := by
  simp [handleObserverEntry, hl, hp]

/-- Claim C7, witness: a paused concrete observer receiving a sample for
element 7 only rewrites that record's `lastSeenEntry`. -/
theorem claim7_witness :
    handleObserverEntry obsPaused (mkSample (mkRat 6 10) 500) =
      ({ obsPaused with
           recordStore := updateRecord obsPaused.recordStore 7
             { recVis with lastSeenEntry := some (mkSample (mkRat 6 10) 500) } }, []) :=
  claim7_paused_samples_dropped obsPaused (mkSample (mkRat 6 10) 500) recVis rfl (by decide)

/-- Claim C8: a sample delivered while paused still overwrites the record's
`lastSeenEntry` (the assignment precedes the pause check), and the
re-evaluation performed by `onTabShown` runs `handleObserverEntry`, unpaused,
on exactly that stored sample re-stamped to the current time — not on the
last sample processed before the page was hidden. -/
theorem claim8_paused_sample_feeds_shown (obs : SpanielObserver) (e : IOEntry)
    (r : SpanielRecord) (t : Nat) (now : Int)
    (hp : obs.paused = true) (hstore : obs.recordStore = [(t, r)])
    (htarget : e.target = t) :
    (handleObserverEntry obs e).1.recordStore =
      [(t, { r with lastSeenEntry := some e })] ∧
    step (handleObserverEntry obs e).1 (.shown now) =
      handleObserverEntry { (handleObserverEntry obs e).1 with paused := false }
        { e with time := now } := by
  have h1 : handleObserverEntry obs e =
      ({ obs with recordStore := [(t, { r with lastSeenEntry := some e })] }, []) := by
    unfold handleObserverEntry
    rw [htarget, hstore]
    simp [lookupRecord, updateRecord, hp]
  rw [h1]
  refine ⟨rfl, ?_⟩
  show onTabShown _ now = _
  unfold onTabShown
  dsimp only
  rw [List.map_cons, List.map_nil, List.foldl_cons, List.foldl_nil]
  unfold shownStep
  simp [lookupRecord]

/-- Claim C8, witness: a sample of ratio 0.6 at time 500 delivered to the
paused concrete observer is stored as `lastSeenEntry`, and showing the page
at time 600 re-processes exactly that sample re-stamped to 600. -/
theorem claim8_witness :
    (handleObserverEntry obsPaused (mkSample (mkRat 6 10) 500)).1.recordStore =
      [(7, { recVis with lastSeenEntry := some (mkSample (mkRat 6 10) 500) })] ∧
    step (handleObserverEntry obsPaused (mkSample (mkRat 6 10) 500)).1 (.shown 600) =
      handleObserverEntry
        { (handleObserverEntry obsPaused (mkSample (mkRat 6 10) 500)).1 with
            paused := false }
        { mkSample (mkRat 6 10) 500 with time := 600 } :=
  claim8_paused_sample_feeds_shown obsPaused (mkSample (mkRat 6 10) 500) recVis 7 600
    rfl rfl rfl

end Spaniel
